import Mathlib

/-!
Verification of the Exam Buddy repository (app.py, auth.py, db_utils.py,
exam_buddy.py, api_key_rotator.py).

The Python code is shallowly embedded: dictionaries backed by MongoDB become
explicit Lean structures and lists of documents, `datetime` timestamps become
natural numbers (seconds), Python exceptions become `Except` values, and the
hosted LLM becomes an opaque function argument.  Each definition is translated
from the corresponding source function; deviations (for instance the regex
based input filter, which is kept as a function parameter) are noted in the
doc comments.
-/

namespace ExamBuddy

/-- Contiguous-sublist test on character lists. -/
def infixOf (needle : List Char) : List Char → Bool
  | [] => needle.isEmpty
  | c :: rest => needle.isPrefixOf (c :: rest) || infixOf needle rest

/-- Python substring test `needle in hay`, on the underlying character lists. -/
def strIn (needle hay : String) : Bool :=
  infixOf needle.toList hay.toList

/-- ASCII lower-casing of one character, as `str.lower()` does on the ASCII
range (the repository compares ASCII keywords only). -/
def charLower (c : Char) : Char :=
  if 'A' ≤ c && c ≤ 'Z' then Char.ofNat (c.toNat + 32) else c

/-- Python `str.lower()` restricted to the ASCII range. -/
def pyLower (s : String) : String :=
  ⟨s.data.map charLower⟩

/-- Python `str.strip()`: remove leading and trailing whitespace. -/
def pyStrip (s : String) : String :=
  ⟨((s.data.dropWhile Char.isWhitespace).reverse.dropWhile Char.isWhitespace).reverse⟩

/-- One chat message as stored in a session document
(`{"role": ..., "content": ..., "timestamp": ...}`). -/
structure Msg where
  role : String
  content : String
  timestamp : Nat := 0
deriving DecidableEq, Repr

/-- Seven days of `timedelta(days=7)` in seconds; time is modelled as seconds since an epoch. -/
def SEVEN_DAYS : Nat := 7 * 24 * 60 * 60

/- ===== exam_buddy.py : guardrails and the conversational chain ===== -/

/-- Denylist from `should_respond_to_input` (exam_buddy.py). -/
def inappropriate_keywords : List String :=
  ["personal information", "password", "credit card", "ssn", "social security",
   "illegal", "hack", "cheat", "exam paper", "leak", "adult content",
   "porn", "violence", "hate speech", "discrimination"]

/-- Model of `should_respond_to_input` (exam_buddy.py): true iff no denylist keyword is a
substring of the lower-cased text. -/
def should_respond_to_input (text : String) : Bool :=
  !(inappropriate_keywords.any (fun kw => strIn kw (pyLower text)))

/-- The fixed refusal string produced by `apply_guardrails` (exam_buddy.py). -/
def REFUSAL : String :=
  "I\x27m sorry, but I can only assist with exam preparation and study-related questions. Is there something about your studies I can help you with?"

/-- The fixed apology returned by the `except` clause of
`get_exam_buddy_response` (exam_buddy.py). -/
def APOLOGY : String :=
  "I\x27m sorry, I encountered an error while processing your request. Please try again later."

/-- Python exceptions that the embedded code can raise. -/
inductive PyErr where
  | keyError : PyErr
  | attributeError : PyErr
  | valueError : PyErr
  | other : String → PyErr
deriving DecidableEq, Repr

/-- Language detection inside `apply_guardrails` (exam_buddy.py): Devanagari
code points give Hindi, else Tamil code points give Tamil, else English.
The check runs on the unfiltered question, as in the source. -/
def detect_language (question : String) : String :=
  if question.toList.any (fun c => 'ऀ' ≤ c && c ≤ 'ॿ') then "Hindi"
  else if question.toList.any (fun c => '஀' ≤ c && c ≤ '௿') then "Tamil"
  else "English"

/-- The dictionary returned by `apply_guardrails` (exam_buddy.py), with the keys
that can occur; an absent key is `none`. -/
structure Guarded where
  question : Option String
  response : Option String
  context : Option String
  language : Option String
deriving Repr

/-- Model of `apply_guardrails` (exam_buddy.py).  `filt` stands for the regex based
`filter_user_input` (URL or code-span removal, truncation to 1000 characters,
strip); it is kept as a parameter because the claims quantify over the
filtered text.  On rejection the returned dictionary holds only `response`. -/
def apply_guardrails (filt : String → String) (question context : String) : Guarded :=
  let filtered := filt question
  if should_respond_to_input filtered = false then
    { question := none, response := some REFUSAL, context := none, language := none }
  else
    { question := some filtered, response := none,
      context := some context, language := some (detect_language question) }

/-- Model of `process_with_llm` (exam_buddy.py): it reads `x["processed"]["question"]`
with bracket access, which raises `KeyError` when `apply_guardrails` returned
the refusal dictionary (that dictionary has no `question` key).  Otherwise the
LLM is invoked once; the paired `Nat` counts LLM invocations. -/
def process_with_llm (llm : String → String → String → String)
    (g : Guarded) : Except PyErr (String × Nat) :=
  match g.question with
  | none => .error .keyError
  | some q => .ok (llm q (g.context.getD "") (g.language.getD "English"), 1)

/-- Model of `chain.invoke` from `create_exam_buddy_chain` (exam_buddy.py): input
processing, then guardrails, then the LLM step, then the final formatting step
`x.get("response", ...)`.  Result: the response or the raised exception,
paired with the number of LLM invocations. -/
def chain_invoke (filt : String → String) (llm : String → String → String → String)
    (question context : String) : Except PyErr String × Nat :=
  match process_with_llm llm (apply_guardrails filt question context) with
  | .error e => (.error e, 0)
  | .ok (r, n) => (.ok r, n)

/- ===== db_utils.py / auth.py : session documents and the store ===== -/

/-- One document of the `exam_buddy_session` collection.  `mongo_id` is the
`_id` field; absent fields are modelled by the defaults. -/
structure SessionDoc where
  mongo_id : String := ""
  session_id : String := ""
  student_id : Option String := none
  created_at : Nat := 0
  last_activity : Nat := 0
  last_updated : Nat := 0
  expires_at : Nat := 0
  conversation : List Msg := []
  context : String := ""
deriving DecidableEq, Repr

/-- MongoDB `update_one`: rewrite the first document matching `p` (MongoDB updates a
single matching document). -/
def updateFirst (p : SessionDoc → Bool) (f : SessionDoc → SessionDoc) :
    List SessionDoc → List SessionDoc
  | [] => []
  | d :: ds => if p d then f d :: ds else d :: updateFirst p f ds

/-- First definition of `MongoDBManager.get_session` (db_utils.py lines
222-244): `find_one_and_update` restricted to non-expired documents,
refreshing `last_activity`, returning the updated document. -/
def get_session_v1 (store : List SessionDoc) (session_id : String) (now : Nat) :
    List SessionDoc × Option SessionDoc :=
  let p := fun d => d.session_id == session_id && now < d.expires_at
  match store.find? p with
  | none => (store, none)
  | some d => (updateFirst p (fun x => { x with last_activity := now }) store,
               some { d with last_activity := now })

/-- Second definition of `MongoDBManager.get_session` (db_utils.py lines
271-273): a bare `find_one` on `session_id`, with no expiry filter and no
`last_activity` update.  In a Python class body the later definition replaces
the earlier one, so this is the effective `get_session` method. -/
def get_session_v2 (store : List SessionDoc) (session_id : String) :
    Option SessionDoc :=
  store.find? (fun d => d.session_id == session_id)

/-- A `$set` patch for `update_session` (db_utils.py); `none` means the field
is not part of the patch. -/
structure SessionPatch where
  student_id : Option (Option String) := none
  context : Option String := none
  conversation : Option (List Msg) := none
  last_activity : Option Nat := none
  expires_at : Option Nat := none
deriving Repr

/-- Apply a `$set` patch to a document. -/
def applyPatch (p : SessionPatch) (d : SessionDoc) : SessionDoc :=
  { d with
    student_id := p.student_id.getD d.student_id
    context := p.context.getD d.context
    conversation := p.conversation.getD d.conversation
    last_activity := p.last_activity.getD d.last_activity
    expires_at := p.expires_at.getD d.expires_at }

/-- Model of `MongoDBManager.update_session` (db_utils.py): inserts
`last_activity = now` into the patch when absent, then `update_one` with
`upsert=True` (the upserted document holds the filter field plus the patch;
absent fields take the model defaults). -/
def update_session (store : List SessionDoc) (session_id : String)
    (patch : SessionPatch) (now : Nat) : List SessionDoc :=
  let patch := if patch.last_activity.isNone
    then { patch with last_activity := some now } else patch
  match store.find? (fun d => d.session_id == session_id) with
  | some _ => updateFirst (fun d => d.session_id == session_id) (applyPatch patch) store
  | none => store ++ [applyPatch patch { session_id := session_id }]

/-- Model of `MongoDBManager.add_to_conversation_history` (db_utils.py): a `$push` of
the new message with no `$slice` cap, together with a `$set` of `last_updated`
and `expires_at = now + 7 days`; `upsert=True`. -/
def add_to_conversation_history (store : List SessionDoc) (session_id : String)
    (role content : String) (now : Nat) : List SessionDoc :=
  let m : Msg := { role := role, content := content, timestamp := now }
  let upd := fun (d : SessionDoc) =>
    { d with conversation := d.conversation ++ [m],
             last_updated := now, expires_at := now + SEVEN_DAYS }
  match store.find? (fun d => d.session_id == session_id) with
  | some _ => updateFirst (fun d => d.session_id == session_id) upd store
  | none => store ++ [upd { session_id := session_id }]

/-- Model of `MongoDBManager.clear_conversation_history` (db_utils.py): `$set` of
`conversation = []` and `last_updated`; no upsert, and `expires_at` is not
touched. -/
def clear_conversation_history (store : List SessionDoc) (session_id : String)
    (now : Nat) : List SessionDoc :=
  updateFirst (fun d => d.session_id == session_id)
    (fun d => { d with conversation := [], last_updated := now }) store

/- ===== app.py : save_message and conversation capping ===== -/

/-- The conversation update performed by `save_message` (app.py) on an
existing session: append, then trim in Python to the last 80 entries. -/
def save_message_conv (conv : List Msg) (m : Msg) : List Msg :=
  let c := conv ++ [m]
  if c.length > 80 then c.drop (c.length - 80) else c

/-- The `find_one` filter of `save_message` (app.py): by `session_id` or by
the student id (`none` matches documents whose `student_id` is null or
missing, mirroring the `{"student_id": None}` clause). -/
def save_message_match (sid : String) (student_id : Option String)
    (d : SessionDoc) : Bool :=
  d.session_id == sid || d.student_id == student_id

/-- Model of `save_message` (app.py lines 599-663).  The session is located by
`find_one` on `session_id` or on the student id; an existing document gets a
`$set` of `conversation`, `last_activity` and `expires_at` keyed on its
`_id`; otherwise a fresh document is inserted whose conversation is the
single new message.  Returns the new store and the Boolean function result. -/
def save_message (store : List SessionDoc) (session_id : Option String)
    (student_id : Option String) (freshMongoId : String) (now : Nat)
    (role content : String) : List SessionDoc × Bool :=
  match session_id with
  | none => (store, false)
  | some sid =>
    let m : Msg := { role := role, content := content, timestamp := now }
    let matchDoc := save_message_match sid student_id
    match store.find? matchDoc with
    | some s =>
      (updateFirst (fun d => d.mongo_id == s.mongo_id)
        (fun d => { d with conversation := save_message_conv s.conversation m,
                           last_activity := now,
                           expires_at := now + SEVEN_DAYS }) store, true)
    | none =>
      (store ++ [{ mongo_id := freshMongoId, session_id := sid,
                   student_id := student_id, created_at := now,
                   last_activity := now, expires_at := now + SEVEN_DAYS,
                   conversation := [m] }], true)

/- ===== app.py : exam validation ===== -/

/-- One entry of the exam tables: canonical name and its keyword synonyms. -/
structure ExamEntry where
  name : String
  keywords : List String
deriving DecidableEq, Repr

/-- Table `MEDICAL_EXAMS` (app.py), in dictionary insertion order. -/
def MEDICAL_EXAMS : List ExamEntry :=
  [⟨"NEET", ["NEET", "Medical", "AIPMT", "MBBS", "AIIMS", "JIPMER"]⟩,
   ⟨"AIIMS", ["AIIMS", "All India Institute of Medical Sciences"]⟩,
   ⟨"JIPMER", ["JIPMER", "Jawaharlal Institute of Postgraduate Medical Education and Research"]⟩,
   ⟨"PGIMER", ["PGIMER", "Post Graduate Institute"]⟩,
   ⟨"AIIMS PG", ["AIIMS PG", "AIIMS Post Graduate"]⟩]

/-- Table `ENGINEERING_EXAMS` (app.py), in dictionary insertion order. -/
def ENGINEERING_EXAMS : List ExamEntry :=
  [⟨"JEE Mains", ["JEE Mains", "JEE Main", "Joint Entrance Main", "JEE"]⟩,
   ⟨"JEE Advanced", ["JEE Advanced", "IIT JEE", "IIT-JEE"]⟩,
   ⟨"BITSAT", ["BITSAT", "BITS Pilani"]⟩,
   ⟨"VITEEE", ["VITEEE", "VIT", "Vellore"]⟩,
   ⟨"SRMJEEE", ["SRMJEEE", "SRM", "SRM University"]⟩,
   ⟨"COMEDK", ["COMEDK", "Karnataka"]⟩,
   ⟨"WBJEE", ["WBJEE", "West Bengal"]⟩,
   ⟨"MHT CET", ["MHT CET", "Maharashtra"]⟩,
   ⟨"KCET", ["KCET", "Karnataka"]⟩,
   ⟨"AP EAMCET", ["AP EAMCET", "Andhra Pradesh", "EAMCET"]⟩,
   ⟨"TS EAMCET", ["TS EAMCET", "Telangana", "EAMCET"]⟩]

/-- One keyword of the entry, lower-cased, occurs in the lower-cased input. -/
def matchesEntry (examLower : String) (e : ExamEntry) : Bool :=
  e.keywords.any (fun kw => strIn (pyLower kw) examLower)

/-- Model of `is_valid_exam` (app.py): scan the medical table then the engineering
table in insertion order (`exam_lower` is inlined); the first entry with a
matching keyword wins. -/
def is_valid_exam (exam_name : String) : Bool × String × String :=
  match MEDICAL_EXAMS.find? (matchesEntry (pyLower exam_name)) with
  | some e => (true, e.name, "medical")
  | none =>
    match ENGINEERING_EXAMS.find? (matchesEntry (pyLower exam_name)) with
    | some e => (true, e.name, "engineering")
    | none => (false, exam_name, "")

/- ===== auth.py : login ===== -/

/-- Validity test `bson.ObjectId.is_valid` on a string: exactly 24 hexadecimal digits. -/
def ObjectId_is_valid (s : String) : Bool :=
  s.length == 24 &&
    s.data.all (fun c => c.isDigit || ('a' ≤ c && c ≤ 'f') || ('A' ≤ c && c ≤ 'F'))

/-- What `login` (auth.py) hands back to its caller: the session fields of the
returned dictionary, with `mongo_id` for `_id`. -/
structure LoginResult where
  mongo_id : String
  session_id : String
  student_id : String
  created_at : Nat
  last_activity : Nat
  expires_at : Nat
  conversation : List Msg
  context : String
deriving DecidableEq, Repr

/-- Mongo `find_one` with `sort=[("last_activity", -1)]`: the document with the
greatest `last_activity` (the first such one on a tie). -/
def mostRecent (l : List SessionDoc) : Option SessionDoc :=
  l.foldl (fun acc d =>
    match acc with
    | none => some d
    | some a => if a.last_activity < d.last_activity then some d else acc) none

/-- Model of `login` (auth.py lines 63-143).  `students` is the set of existing student
ids; `freshSid` and `freshMongoId` stand for the `str(ObjectId())` values that
would be generated (`current_session_id` is taken verbatim when supplied, as
the claims only exercise `None`).  An existing session for the student is
updated in place (`$set` of `session_id`, `last_activity`, `expires_at`) and
its identifier reused; otherwise a fresh document is inserted. -/
def login (students : List String) (store : List SessionDoc) (student_id : String)
    (current_session_id : Option String) (now : Nat) (freshSid freshMongoId : String) :
    List SessionDoc × Option LoginResult :=
  if student_id == "" || ObjectId_is_valid student_id == false then (store, none)
  else if students.contains student_id == false then (store, none)
  else
    match mostRecent (store.filter (fun d => d.student_id == some student_id)) with
    | some ex =>
      let sid := match current_session_id with
        | some c => c
        | none => ex.session_id
      let store' := updateFirst (fun d => d.mongo_id == ex.mongo_id)
        (fun d => { d with session_id := sid, last_activity := now,
                           expires_at := now + SEVEN_DAYS }) store
      (store', some { mongo_id := ex.mongo_id, session_id := sid,
                      student_id := student_id, created_at := ex.created_at,
                      last_activity := now, expires_at := now + SEVEN_DAYS,
                      conversation := ex.conversation, context := ex.context })
    | none =>
      let sid := current_session_id.getD freshSid
      let doc : SessionDoc :=
        { mongo_id := freshMongoId, session_id := sid,
          student_id := some student_id, created_at := now, last_activity := now,
          expires_at := now + SEVEN_DAYS, conversation := [], context := "" }
      (store ++ [doc], some { mongo_id := freshMongoId, session_id := sid,
                              student_id := student_id, created_at := now,
                              last_activity := now, expires_at := now + SEVEN_DAYS,
                              conversation := [], context := "" })

/- ===== app.py : profile collection (process_user_input) ===== -/

/-- ASCII upper-casing of one character. -/
def charUpper (c : Char) : Char :=
  if 'a' ≤ c && c ≤ 'z' then Char.ofNat (c.toNat - 32) else c

/-- Python `str.capitalize()`: first character upper, remainder lower (ASCII range). -/
def pyCapitalize (s : String) : String :=
  match s.data with
  | [] => ""
  | c :: rest => ⟨charUpper c :: rest.map charLower⟩

/-- Split a character list at commas. -/
def splitCommaAux : List Char → List Char → List (List Char)
  | [], acc => [acc.reverse]
  | c :: rest, acc =>
    if c == ',' then acc.reverse :: splitCommaAux rest []
    else splitCommaAux rest (c :: acc)

/-- Python `s.split(",")`. -/
def pySplitComma (s : String) : List String :=
  (splitCommaAux s.data []).map (fun cs => ⟨cs⟩)

/-- The subject-list parse in `process_user_input` (app.py):
`[s.strip().lower() for s in prompt.split(",") if s.strip()]`. -/
def parse_subjects (prompt : String) : List String :=
  (pySplitComma prompt).filterMap (fun s =>
    let t := pyStrip s
    if t == "" then none else some (pyLower t))

/-- The transient profile-collection dictionary `st.session_state.user_info`
(app.py); `none` models an absent key. -/
structure UserInfo where
  exam_type : Option String := none
  exam_category : Option String := none
  subjects : List String := []
  subject_marks : List (String × Rat) := []
  pending_subjects : Option (List String) := none
  current_subject_index : Option Nat := none
  awaiting_subjects : Option Bool := none
  awaiting_marks : Option Bool := none
  context_provided : Bool := false
  profile_complete : Bool := false
  previous_marks : Option (List String) := none
  current_marks : Option (List (String × Rat)) := none
deriving DecidableEq, Repr

/-- Python dict assignment `d[k] = v`, preserving insertion order. -/
def assocSet (l : List (String × Rat)) (k : String) (v : Rat) : List (String × Rat) :=
  if l.any (fun p => p.1 == k) then l.map (fun p => if p.1 == k then (k, v) else p)
  else l ++ [(k, v)]

/-- Outcome of `process_user_input` (app.py): the updated `user_info` plus the
assistant response it appends (`none` when the function falls through with no
response), or an uncaught exception. -/
inductive PUIResult where
  | ok (ui : UserInfo) (response : Option String)
  | raised (ui : UserInfo) (e : PyErr)
deriving DecidableEq, Repr

/-- The invalid-exam re-prompt of `process_user_input` (app.py); the leading
indentation of the Python triple-quoted block is elided. -/
def INVALID_EXAM_RESPONSE : String :=
  "Please enter a valid medical or engineering entrance exam. Examples:\n\n**Medical Exams:**\n- NEET (National Eligibility cum Entrance Test)\n- AIIMS (All India Institute of Medical Sciences)\n- JIPMER (Jawaharlal Institute of Postgraduate Medical Education and Research)\n\n**Engineering Exams:**\n- JEE Mains/Advanced (Joint Entrance Examination)\n- BITSAT (Birla Institute of Technology and Science Admission Test)\n- VITEEE (Vellore Institute of Technology Engineering Entrance Exam)\n- SRMJEEE (SRM Joint Engineering Entrance Exam)\n\nPlease enter the full name or common abbreviation of your exam."

/-- The marks re-prompt used by both invalid-marks paths (app.py). -/
def MARKS_REPROMPT : String :=
  "Please enter a valid number between 0 and 100."

/-- The empty-subject-list re-prompt (app.py). -/
def SUBJECTS_EMPTY_REPROMPT : String :=
  "Please enter at least one valid subject name."

/-- The per-subject marks question (app.py). -/
def marks_question (subject : String) : String :=
  "What are your marks in " ++ subject ++ "? (Enter a number between 0-100)"

/-- The subjects question shown after a valid exam name (app.py). -/
def subjects_question (exam_name : String) : String :=
  "Great! You\x27re preparing for " ++ exam_name ++ ". What subjects are you studying? (Please list them separated by commas, e.g., Physics, Chemistry, Biology)"

/-- The completion welcome message (app.py). -/
def welcome_message (exam_type subject_list : String) : String :=
  "Great! I\x27m all set to help you with your " ++ exam_type ++ " preparation!\n\nYou can ask me about:\n- Study techniques for " ++ subject_list ++ "\n- Time management strategies\n- Specific topics you\x27re struggling with\n- Practice questions\n- And much more!\n\nWhat would you like to start with?"

/-- Model of `process_user_input` (app.py lines 271-513), the profile-collection state
machine.  `parseFloat` stands for Python `float(prompt)` (`none` models a
`ValueError`).  The append of the user and assistant messages to the chat
display list is not part of this transition; only `user_info` and the response
are.  The fourth (`previous_marks`) branch is unreachable in this repository
(nothing ever writes `previous_marks` into `user_info`); its completion path
raises, since `db_manager.get_student` is not a `MongoDBManager` method and
the later `welcome_msg` reference is an undefined name. -/
def process_user_input (parseFloat : String → Option Rat) (ui : UserInfo)
    (prompt : String) : PUIResult :=
  if ui.exam_type = none then
    match is_valid_exam prompt with
    | (false, _, _) => .ok ui (some INVALID_EXAM_RESPONSE)
    | (true, exam_name, exam_type) =>
      .ok { ui with exam_type := some exam_name, exam_category := some exam_type,
                    subjects := [], subject_marks := [],
                    awaiting_subjects := some true }
        (some (subjects_question exam_name))
  else if ui.awaiting_subjects.getD false then
    match parse_subjects prompt with
    | [] => .ok ui (some SUBJECTS_EMPTY_REPROMPT)
    | s0 :: rest =>
      .ok { ui with pending_subjects := some (s0 :: rest),
                    current_subject_index := some 0,
                    awaiting_subjects := some false, awaiting_marks := some true }
        (some (marks_question s0))
  else if ui.awaiting_marks.getD false then
    match parseFloat prompt with
    | none => .ok ui (some MARKS_REPROMPT)
    | some marks =>
      if 0 ≤ marks ∧ marks ≤ 100 then
        match ui.current_subject_index, ui.pending_subjects with
        | some current_idx, some subjects =>
          match subjects.get? current_idx with
          | none => .raised ui (.other ("IndexError"))
          | some current_subject =>
            let ui := { ui with
              subject_marks := assocSet ui.subject_marks current_subject marks }
            let next_idx := current_idx + 1
            if next_idx < subjects.length then
              .ok { ui with current_subject_index := some next_idx }
                (some (marks_question (subjects.getD next_idx "")))
            else
              .ok { ui with subjects := subjects, profile_complete := true,
                            context_provided := true, pending_subjects := none,
                            current_subject_index := none, awaiting_marks := none }
                (some (welcome_message (ui.exam_type.getD "")
                  (String.intercalate ", " (subjects.map pyCapitalize))))
        | _, _ => .raised ui .keyError
      else .ok ui (some MARKS_REPROMPT)
  else if ui.previous_marks.isSome &&
      (ui.current_marks.isNone || ui.current_subject_index.isSome) then
    match parseFloat prompt with
    | none => .ok ui (some MARKS_REPROMPT)
    | some marks =>
      if 0 ≤ marks ∧ marks ≤ 100 then
        match ui.previous_marks with
        | none => .raised ui .keyError
        | some subjects =>
          let current_idx := ui.current_subject_index.getD 0
          match subjects.get? current_idx with
          | none => .raised ui (.other ("IndexError"))
          | some current_subject =>
            let cm := assocSet (ui.current_marks.getD []) current_subject marks
            let ui := { ui with current_marks := some cm }
            if current_idx < subjects.length - 1 then
              .ok { ui with current_subject_index := some (current_idx + 1) }
                (some ("What are your current marks in " ++ subjects.getD (current_idx + 1) "" ++ "? (Enter a number between 0-100)"))
            else
              .raised ui .attributeError
      else .ok ui (some MARKS_REPROMPT)
  else if ui.previous_marks.isNone && !ui.profile_complete then
    .ok { ui with profile_complete := true, context_provided := true }
      (some (welcome_message (ui.exam_type.getD "")
        (String.intercalate ", " ui.subjects)))
  else .ok ui none

/- ===== exam_buddy.py / app.py : the response entry points ===== -/

/-- The `context` argument of the engine, which the source passes either as a
string or as a list of strings. -/
inductive Ctx where
  | str : String → Ctx
  | list : List String → Ctx
deriving DecidableEq, Repr

/-- Python `repr` of a list of strings, as produced when an f-string formats a
list (embedded-quote escaping elided; no claim depends on this text). -/
def pyListRepr (l : List String) : String :=
  "[" ++ String.intercalate ", " (l.map (fun s => "\x27" ++ s ++ "\x27")) ++ "]"

/-- How an f-string renders the `context` value. -/
def ctxFormat : Ctx → String
  | .str s => s
  | .list l => pyListRepr l

/-- The body of `get_exam_buddy_response` (exam_buddy.py lines 397-458), before
the `except` clause: chain construction (raises `ValueError` when
`OPENAI_API_KEY` is unset), session context assembly, the chain invocation,
and the final `last_activity` update (whose possible failure is the
`dbUpdateFails` flag).  `session` is what `auth.get_session` returned (that
function catches its own errors and yields `None`).  The paired `Nat` counts
LLM invocations. -/
def get_exam_buddy_response_body (filt : String → String)
    (llm : String → String → String → String) (apiKeySet : Bool)
    (session : Option SessionDoc) (dbUpdateFails : Bool)
    (question : String) (context : Ctx) : Except PyErr String × Nat :=
  if apiKeySet = false then (.error .valueError, 0)
  else
    let session_context := match session with
      | some s => s.context
      | none => ""
    let full_context := pyStrip (session_context ++ "\n\n" ++ ctxFormat context)
    match chain_invoke filt llm question full_context with
    | (.error e, n) => (.error e, n)
    | (.ok r, n) =>
      match session with
      | some _ => if dbUpdateFails then (.error (.other ("PyMongoError")), n) else (.ok r, n)
      | none => (.ok r, n)

/-- Model of `get_exam_buddy_response` (exam_buddy.py): the body wrapped in
`try ... except Exception`, every exception becoming the fixed apology. -/
def get_exam_buddy_response (filt : String → String)
    (llm : String → String → String → String) (apiKeySet : Bool)
    (session : Option SessionDoc) (dbUpdateFails : Bool)
    (question : String) (context : Ctx) : String × Nat :=
  match get_exam_buddy_response_body filt llm apiKeySet session dbUpdateFails question context with
  | (.error _, n) => (APOLOGY, n)
  | (.ok r, n) => (r, n)

/-- The special-cased questions of `get_response_async` (app.py). -/
def SPECIAL_QUESTIONS : List String :=
  ["what was the last thing i asked you", "what did i just ask",
   "repeat my last question"]

/-- Method names defined on `MongoDBManager` (db_utils.py); note the absence
of `get_conversation` and `get_student`. -/
def MongoDBManagerMethods : List String :=
  ["update_session", "get_user_by_id", "create_session", "get_session",
   "delete_session", "get_student_marks", "save_session", "close",
   "get_conversation_history", "add_to_conversation_history",
   "clear_conversation_history", "get_recent_messages"]

/-- Python attribute lookup on the `db_manager` singleton: `AttributeError`
for any name that is not a defined method. -/
def db_manager_getattr (name : String) : Except PyErr String :=
  if MongoDBManagerMethods.contains name then .ok name else .error .attributeError

/-- The reply the special-cased branch of `get_response_async` (app.py) would
build from a fetched history: the last user message of `history[:-1]`,
or the fixed no-record reply. -/
def last_user_question_reply (history : List Msg) : String :=
  match history.dropLast.reverse.find? (fun m => m.role == "user") with
  | some m => "You previously asked: \"" ++ m.content ++ "\""
  | none => "I don\x27t have a record of your previous question. How can I assist you today?"

/-- The recap of the last three messages that `get_response_async` (app.py)
appends to the context. -/
def history_context (history : List Msg) : String :=
  "\nPrevious conversation:\n" ++ String.join
    ((history.drop (history.length - 3)).map (fun m =>
      (if m.role == "user" then "Student" else "Assistant") ++ ": " ++ m.content ++ "\n"))

/-- Model of `get_response_async` (app.py lines 90-142).  `hist` is what
`get_conversation_history` would return for the session; both history
fetches, however, go through the attribute `get_conversation`, which does not
exist on `MongoDBManager`, so they raise `AttributeError`, the enclosing
`except` swallows it, and control falls through to `get_exam_buddy_response`
with the untouched context. -/
def get_response_async (filt : String → String)
    (llm : String → String → String → String) (apiKeySet : Bool)
    (session : Option SessionDoc) (dbUpdateFails : Bool) (hist : List Msg)
    (question sessionId context : String) : String × Nat :=
  let tryResult : Except PyErr (Option String × Ctx) := do
    if SPECIAL_QUESTIONS.contains (pyLower (pyStrip question)) then
      let _ ← db_manager_getattr ("get_conversation")
      -- unreachable: the lookup above raises
      return (some (last_user_question_reply hist), Ctx.str context)
    if sessionId ≠ "" then
      let _ ← db_manager_getattr ("get_conversation")
      -- unreachable: the lookup above raises
      if hist.isEmpty then
        return (none, Ctx.str context)
      else
        return (none, Ctx.list [context, history_context hist])
    return (none, Ctx.str context)
  match tryResult with
  | .ok (some ans, _) => (ans, 0)
  | .ok (none, ctx) =>
    get_exam_buddy_response filt llm apiKeySet session dbUpdateFails question ctx
  | .error _ =>
    get_exam_buddy_response filt llm apiKeySet session dbUpdateFails question (Ctx.str context)

/- ===== concrete material used by witnesses and counterexamples ===== -/

/-- A stand-in LLM returning a fixed text, used to instantiate the opaque
model argument in concrete evaluations. -/
def llmStub : String → String → String → String := fun _ _ _ => "LLM RESPONSE"

/-- Builds `n` distinct one-word user messages with increasing timestamps. -/
def mkMsgs (n : Nat) : List Msg :=
  (List.range n).map (fun i => { role := "user", content := "m", timestamp := i })

/-- A stored session whose expiry timestamp has already passed at time 10. -/
def expiredDoc : SessionDoc :=
  { session_id := "s1", last_activity := 3, expires_at := 5 }

/-- A live session document used in concrete store evaluations. -/
def sampleDoc : SessionDoc :=
  { mongo_id := "oid1", session_id := "s1", student_id := some "0123456789abcdef01234567",
    created_at := 1, last_activity := 2, expires_at := 42,
    conversation := [{ role := "user", content := "hello", timestamp := 1 }],
    context := "prior context" }

/-- A well-formed student ObjectId string (24 hexadecimal digits). -/
def sid24 : String := "0123456789abcdef01234567"

/-- A `user_info` state in the middle of mark collection: exam chosen,
subjects listed, first mark pending. -/
def uiSample : UserInfo :=
  { exam_type := some "NEET", exam_category := some "medical",
    pending_subjects := some ["physics", "chemistry"],
    current_subject_index := some 0,
    awaiting_subjects := some false, awaiting_marks := some true }

/- ===== helper lemmas ===== -/

theorem take_append_take {α : Type} (n : Nat) (a b : List α) :
    (a ++ b.take n).take n = (a ++ b).take n := by
  rw [List.take_append_eq_append_take, List.take_append_eq_append_take,
    List.take_take, Nat.min_eq_left (Nat.sub_le n a.length)]

theorem rtake_append_rtake {α : Type} (n : Nat) (l l2 : List α) :
    (l.rtake n ++ l2).rtake n = (l ++ l2).rtake n := by
  simp only [List.rtake_eq_reverse_take_reverse, List.reverse_append,
    List.reverse_reverse]
  rw [take_append_take]

theorem rtake_append_right {α : Type} (a b : List α) (n : Nat) (h : n ≤ b.length) :
    (a ++ b).rtake n = b.rtake n := by
  unfold List.rtake
  rw [List.length_append,
    show a.length + b.length - n = a.length + (b.length - n) by omega,
    ← List.drop_drop, List.drop_left]

theorem save_message_conv_eq_rtake (c : List Msg) (m : Msg) :
    save_message_conv c m = (c ++ [m]).rtake 80 := by
  show (if (c ++ [m]).length > 80 then (c ++ [m]).drop ((c ++ [m]).length - 80)
    else c ++ [m]) = (c ++ [m]).drop ((c ++ [m]).length - 80)
  split
  · rfl
  · next h =>
    rw [Nat.sub_eq_zero_of_le (Nat.le_of_not_lt h), List.drop_zero]

theorem foldl_save_message_conv (ms : List Msg) (h : ms ≠ []) (init : List Msg) :
    ms.foldl save_message_conv init = (init ++ ms).rtake 80 := by
  induction ms generalizing init with
  | nil => exact absurd rfl h
  | cons m rest ih =>
    cases rest with
    | nil => simpa using save_message_conv_eq_rtake init m
    | cons b rest2 =>
      have step : (m :: b :: rest2).foldl save_message_conv init =
          (b :: rest2).foldl save_message_conv (save_message_conv init m) := rfl
      rw [step, ih (by simp) (save_message_conv init m), save_message_conv_eq_rtake,
        rtake_append_rtake]
      simp

theorem updateFirst_cons_pos (p : SessionDoc → Bool) (f : SessionDoc → SessionDoc)
    (d : SessionDoc) (ds : List SessionDoc) (h : p d = true) :
    updateFirst p f (d :: ds) = f d :: ds := by
  simp [updateFirst, h]

theorem updateFirst_cons_neg (p : SessionDoc → Bool) (f : SessionDoc → SessionDoc)
    (d : SessionDoc) (ds : List SessionDoc) (h : p d = false) :
    updateFirst p f (d :: ds) = d :: updateFirst p f ds := by
  simp [updateFirst, h]

theorem updateFirst_append_of_none (p : SessionDoc → Bool) (f : SessionDoc → SessionDoc)
    (l1 l2 : List SessionDoc) (h : ∀ x ∈ l1, p x = false) :
    updateFirst p f (l1 ++ l2) = l1 ++ updateFirst p f l2 := by
  induction l1 with
  | nil => rfl
  | cons a l ih =>
    rw [List.cons_append, updateFirst_cons_neg _ _ _ _ (h a (by simp)),
      ih (fun x hx => h x (by simp [hx])), List.cons_append]

theorem find?_updateFirst (p : SessionDoc → Bool) (f : SessionDoc → SessionDoc)
    (l : List SessionDoc) (hp : ∀ x, p x = true → p (f x) = true) :
    (updateFirst p f l).find? p = (l.find? p).map f := by
  induction l with
  | nil => rfl
  | cons d ds ih =>
    by_cases h : p d = true
    · rw [updateFirst_cons_pos _ _ _ _ h, List.find?_cons_of_pos _ (hp d h),
        List.find?_cons_of_pos _ h]
      rfl
    · have h' : p d = false := by revert h; cases p d <;> simp
      rw [updateFirst_cons_neg _ _ _ _ h', List.find?_cons_of_neg _ (by simp [h']),
        List.find?_cons_of_neg _ (by simp [h']), ih]

theorem find?_updateFirst_sid (sid : String) (f : SessionDoc → SessionDoc)
    (l : List SessionDoc) (hf : ∀ x, (f x).session_id = x.session_id) :
    (updateFirst (fun d => d.session_id == sid) f l).find?
      (fun d => d.session_id == sid) =
    (l.find? (fun d => d.session_id == sid)).map f :=
  find?_updateFirst _ f l (fun x hx => by rw [hf x]; exact hx)

/- ===== claim theorems ===== -/

/-- C1: a question whose filtered form contains the denylist keyword "hack" is
indeed rejected before the model (zero LLM invocations), but the fixed
refusal string never reaches the caller: `apply_guardrails` returns a
dictionary holding only `response`, `process_with_llm` raises `KeyError`
reading its missing `question` key, and `get_exam_buddy_response` converts
that exception into the generic apology, which differs from the refusal
string promised by the claim. -/
theorem guardrail_refusal_never_returned :
    should_respond_to_input ("how can i hack the exam") = false ∧
    chain_invoke id llmStub ("how can i hack the exam") ("") =
      (Except.error PyErr.keyError, 0) ∧
    get_exam_buddy_response id llmStub true none false
      ("how can i hack the exam") (Ctx.str ("")) = (APOLOGY, 0) ∧
    APOLOGY ≠ REFUSAL := by
  refine ⟨by decide, by rfl, by rfl, by decide⟩

set_option maxRecDepth 40000 in
/-- C2 counterexample: 81 single-message appends through
`add_to_conversation_history` (db_utils.py) leave a stored conversation of
length 81, not 80 — its `$push` carries no `$slice` cap. -/
theorem conversation_append_uncapped :
    ((List.range 81).foldl
        (fun st i => add_to_conversation_history st ("s1") ("user") ("m") i)
        [{ session_id := "s1" }]).map (fun d => d.conversation.length) = [81] ∧
    (81 : Nat) ≠ 80 := by
  refine ⟨by rfl, by decide⟩

/-- C2 (amended): appending more than 80 messages one at a time through the
conversation update of `save_message` (app.py) leaves exactly the most recent
80 appended messages, in append order — `save_message` performs this as a
read-modify-write (`find_one` then `$set`), not as one atomic push-with-cap,
and `add_to_conversation_history` applies no cap at all (see the
counterexample). -/
theorem save_message_cap_fifo (init ms : List Msg) (h : 80 < ms.length) :
    (ms.foldl save_message_conv init).length = 80 ∧
    ms.foldl save_message_conv init = ms.drop (ms.length - 80) := by
  have hne : ms ≠ [] := by
    intro e
    rw [e] at h
    simp at h
  rw [foldl_save_message_conv ms hne init,
    rtake_append_right init ms 80 (Nat.le_of_lt h)]
  constructor
  · unfold List.rtake
    rw [List.length_drop]
    omega
  · unfold List.rtake
    rfl

/-- C2 witness: 81 concrete appends end at length 80 holding the last 80. -/
theorem save_message_cap_fifo_witness :
    ((mkMsgs 81).foldl save_message_conv []).length = 80 ∧
    (mkMsgs 81).foldl save_message_conv [] =
      (mkMsgs 81).drop ((mkMsgs 81).length - 80) :=
  save_message_cap_fifo [] (mkMsgs 81) (by decide)

/-- C3: with a prior user message "explain time management" in the stored
history, the question "what did I just ask" does not short-circuit: the
attribute `get_conversation` does not exist on `MongoDBManager`, the
`AttributeError` is swallowed by the surrounding `except`, and the question
falls through to the model, which is invoked once; the returned string is the
model output, not the stored prior question that the dead branch would have
produced. -/
theorem what_did_i_just_ask_falls_through :
    db_manager_getattr ("get_conversation") = .error .attributeError ∧
    get_response_async id llmStub true none false
      [⟨"user", "explain time management", 0⟩, ⟨"user", "what did I just ask", 1⟩]
      ("what did I just ask") ("abc") ("ctx") = ("LLM RESPONSE", 1) ∧
    last_user_question_reply
      [⟨"user", "explain time management", 0⟩, ⟨"user", "what did I just ask", 1⟩] =
      "You previously asked: \"explain time management\"" ∧
    strIn ("explain time management") ("LLM RESPONSE") = false := by
  refine ⟨by rfl, by rfl, by rfl, by decide⟩

/-- C4: whenever some keyword of the exam tables occurs (case-insensitively)
in the input, `is_valid_exam` returns `true`, the canonical name of the
matched table entry, and that entry's correct category ("medical" for the
medical table, "engineering" for the engineering table); with no match it
returns `(false, input, "")`. -/
theorem is_valid_exam_spec (s : String) :
    ((MEDICAL_EXAMS ++ ENGINEERING_EXAMS).any (matchesEntry (pyLower s)) = true →
      ∃ e, e ∈ MEDICAL_EXAMS ++ ENGINEERING_EXAMS ∧
        matchesEntry (pyLower s) e = true ∧
        is_valid_exam s = (true, e.name,
          if e ∈ MEDICAL_EXAMS then "medical" else "engineering")) ∧
    ((MEDICAL_EXAMS ++ ENGINEERING_EXAMS).any (matchesEntry (pyLower s)) = false →
      is_valid_exam s = (false, s, "")) := by
  constructor
  · intro hany
    unfold is_valid_exam
    cases h1 : MEDICAL_EXAMS.find? (matchesEntry (pyLower s)) with
    | some e =>
      refine ⟨e, List.mem_append_left _ (List.mem_of_find?_eq_some h1),
        List.find?_some h1, ?_⟩
      rw [if_pos (List.mem_of_find?_eq_some h1)]
    | none =>
      cases h2 : ENGINEERING_EXAMS.find? (matchesEntry (pyLower s)) with
      | some e =>
        have hnotmed : e ∉ MEDICAL_EXAMS := by
          intro hmem
          exact (List.find?_eq_none.mp h1 e hmem) (List.find?_some h2)
        refine ⟨e, List.mem_append_right _ (List.mem_of_find?_eq_some h2),
          List.find?_some h2, ?_⟩
        rw [if_neg hnotmed]
      | none =>
        exfalso
        rcases List.any_eq_true.mp hany with ⟨e, hmem, hp⟩
        rcases List.mem_append.mp hmem with hm | hm
        · exact (List.find?_eq_none.mp h1 e hm) hp
        · exact (List.find?_eq_none.mp h2 e hm) hp
  · intro hnone
    unfold is_valid_exam
    cases h1 : MEDICAL_EXAMS.find? (matchesEntry (pyLower s)) with
    | some e =>
      exact absurd (List.find?_some h1)
        ((List.any_eq_false.mp hnone) e
          (List.mem_append_left _ (List.mem_of_find?_eq_some h1)))
    | none =>
      cases h2 : ENGINEERING_EXAMS.find? (matchesEntry (pyLower s)) with
      | some e =>
        exact absurd (List.find?_some h2)
          ((List.any_eq_false.mp hnone) e
            (List.mem_append_right _ (List.mem_of_find?_eq_some h2)))
      | none => rfl

/-- C4 witness: "IIT-JEE" matches (via the synonym "JEE" of the first
engineering entry) and "a poem" does not. -/
theorem is_valid_exam_spec_witness :
    (∃ e, e ∈ MEDICAL_EXAMS ++ ENGINEERING_EXAMS ∧
        matchesEntry (pyLower ("IIT-JEE")) e = true ∧
        is_valid_exam ("IIT-JEE") = (true, e.name,
          if e ∈ MEDICAL_EXAMS then "medical" else "engineering")) ∧
    is_valid_exam ("a poem") = (false, "a poem", "") :=
  ⟨(is_valid_exam_spec ("IIT-JEE")).1 (by decide),
   (is_valid_exam_spec ("a poem")).2 (by decide)⟩

/-- C5: the second `get_session` definition shadows the first inside
`MongoDBManager`, so the effective method returns an already-expired session
document (expiry 5, current time 10) with its stale `last_activity` instead
of `None`, while the shadowed first definition would have filtered it out. -/
theorem get_session_shadowed_behavior :
    get_session_v2 [expiredDoc] ("s1") = some expiredDoc ∧
    expiredDoc.expires_at < 10 ∧
    (get_session_v2 [expiredDoc] ("s1")).map (fun d => d.last_activity) = some 3 ∧
    (get_session_v1 [expiredDoc] ("s1") 10).2 = none := by
  refine ⟨by decide, by decide, by decide, by decide⟩

/-- C6 counterexample: a conversation clear through
`clear_conversation_history`, and a field update through `update_session`
with an empty patch, at time 100 on a session whose expiry is 42, leave the
expiry at 42 instead of refreshing it to 100 + 7 days — so not every session
write refreshes the expiry. -/
theorem session_write_ttl_not_refreshed :
    (clear_conversation_history [{ session_id := "s1", expires_at := 42 }] ("s1") 100).map
        (fun d => d.expires_at) = [42] ∧
    (update_session [{ session_id := "s1", expires_at := 42 }] ("s1") ({} : SessionPatch) 100).map
        (fun d => d.expires_at) = [42] ∧
    (42 : Nat) ≠ 100 + SEVEN_DAYS := by
  refine ⟨by rfl, by rfl, by decide⟩

/-- C6 (amended): a conversation append through `add_to_conversation_history`
does refresh the session's expiry to now + 7 days, but a field update through
`update_session` (when the patch carries no explicit `expires_at`) and a
conversation clear through `clear_conversation_history` refresh only the
activity timestamps and leave `expires_at` unchanged. -/
theorem session_write_ttl_amended (store : List SessionDoc)
    (sid role content : String) (patch : SessionPatch) (now : Nat) (d : SessionDoc)
    (hd : store.find? (fun x => x.session_id == sid) = some d)
    (hp : patch.expires_at = none) :
    (∃ d', (add_to_conversation_history store sid role content now).find?
        (fun x => x.session_id == sid) = some d' ∧
        d'.expires_at = now + SEVEN_DAYS) ∧
    (∃ d', (update_session store sid patch now).find?
        (fun x => x.session_id == sid) = some d' ∧ d'.expires_at = d.expires_at) ∧
    (∃ d', (clear_conversation_history store sid now).find?
        (fun x => x.session_id == sid) = some d' ∧ d'.expires_at = d.expires_at) := by
  refine ⟨?_, ?_, ?_⟩
  · unfold add_to_conversation_history
    rw [hd]
    dsimp only
    rw [find?_updateFirst_sid]
    · rw [hd]
      exact ⟨_, rfl, rfl⟩
    · exact fun x => rfl
  · unfold update_session
    rw [hd]
    dsimp only
    rw [find?_updateFirst_sid]
    · rw [hd]
      refine ⟨_, rfl, ?_⟩
      split <;> simp [applyPatch, hp]
    · exact fun x => rfl
  · unfold clear_conversation_history
    rw [find?_updateFirst_sid]
    · rw [hd]
      exact ⟨_, rfl, rfl⟩
    · exact fun x => rfl

/-- C6 witness: the amended statement evaluated on a one-session store. -/
theorem session_write_ttl_amended_witness :
    (∃ d', (add_to_conversation_history [sampleDoc] ("s1") ("user") ("hi") 100).find?
        (fun x => x.session_id == "s1") = some d' ∧
        d'.expires_at = 100 + SEVEN_DAYS) ∧
    (∃ d', (update_session [sampleDoc] ("s1") ({} : SessionPatch) 100).find?
        (fun x => x.session_id == "s1") = some d' ∧
        d'.expires_at = sampleDoc.expires_at) ∧
    (∃ d', (clear_conversation_history [sampleDoc] ("s1") 100).find?
        (fun x => x.session_id == "s1") = some d' ∧
        d'.expires_at = sampleDoc.expires_at) :=
  session_write_ttl_amended [sampleDoc] "s1" "user" "hi" ({} : SessionPatch)
    100 sampleDoc (by rfl) (by rfl)

/-- C7: an invalid mark input during mark collection — non-numeric (Python
`float` raises `ValueError`) or parsing outside [0,100] — makes
`process_user_input` re-prompt with the fixed marks re-prompt and return the
collection state entirely unchanged (in particular `current_subject_index`,
`pending_subjects`, `subject_marks` and the awaiting flags). -/
theorem invalid_marks_leave_state_unchanged
    (parseFloat : String → Option Rat) (ui : UserInfo) (prompt : String)
    (h1 : ui.exam_type ≠ none)
    (h2 : ui.awaiting_subjects.getD false = false)
    (h3 : ui.awaiting_marks.getD false = true)
    (h4 : parseFloat prompt = none ∨
      ∃ q, parseFloat prompt = some q ∧ ¬(0 ≤ q ∧ q ≤ 100)) :
    process_user_input parseFloat ui prompt = .ok ui (some MARKS_REPROMPT) := by
  unfold process_user_input
  rw [if_neg h1, if_neg (by simp [h2]), if_pos (by simp [h3])]
  rcases h4 with h | ⟨q, hq, hrange⟩
  · rw [h]
  · rw [hq]
    exact if_neg hrange

/-- C7 witness: a non-numeric mark and an out-of-range mark both leave the
concrete collection state untouched and re-prompt. -/
theorem invalid_marks_leave_state_unchanged_witness :
    process_user_input (fun _ => none) uiSample ("abc") =
      .ok uiSample (some MARKS_REPROMPT) ∧
    process_user_input (fun _ => some ((150 : Rat))) uiSample ("150") =
      .ok uiSample (some MARKS_REPROMPT) :=
  ⟨invalid_marks_leave_state_unchanged (fun _ => none) uiSample "abc"
      (by decide) (by rfl) (by rfl) (Or.inl rfl),
   invalid_marks_leave_state_unchanged (fun _ => some 150) uiSample "150"
      (by decide) (by rfl) (by rfl) (Or.inr ⟨150, rfl, by decide⟩)⟩

/-- C8: two consecutive `login` calls for the same existing student, with no
caller-supplied session identifier and no pre-existing session for that
student, leave exactly one session record for the student; the second call
finds the record inserted by the first, refreshes it in place, and returns
the same `session_id` and `_id` instead of creating a second record. -/
theorem login_twice_reuses_session
    (students : List String) (store : List SessionDoc) (sid : String)
    (t1 t2 : Nat) (f1 g1 f2 g2 : String)
    (hvalid : ObjectId_is_valid sid = true)
    (hmem : students.contains sid = true)
    (hnone : store.filter (fun d => d.student_id == some sid) = [])
    (hfresh : ∀ d ∈ store, (d.mongo_id == g1) = false) :
    ∃ store1 store2 r1 r2,
      login students store sid none t1 f1 g1 = (store1, some r1) ∧
      login students store1 sid none t2 f2 g2 = (store2, some r2) ∧
      r2.session_id = r1.session_id ∧
      r2.mongo_id = r1.mongo_id ∧
      (store2.filter (fun d => d.student_id == some sid)).length = 1 := by
  have hne : (sid == "") = false := by
    have hlen : sid.length = 24 := by
      have h24 : (sid.length == 24) = true := by
        have := hvalid
        unfold ObjectId_is_valid at this
        exact (Bool.and_eq_true _ _ |>.mp this).1
      simpa using h24
    apply beq_eq_false_iff_ne.mpr
    intro e
    rw [e] at hlen
    simp at hlen
  have hmem2 : sid ∈ students := by simpa using hmem
  refine ⟨store ++ [⟨g1, f1, some sid, t1, t1, 0, t1 + SEVEN_DAYS, [], ""⟩],
    store ++ [⟨g1, f1, some sid, t1, t2, 0, t2 + SEVEN_DAYS, [], ""⟩],
    ⟨g1, f1, sid, t1, t1, t1 + SEVEN_DAYS, [], ""⟩,
    ⟨g1, f1, sid, t1, t2, t2 + SEVEN_DAYS, [], ""⟩, ?_, ?_, rfl, rfl, ?_⟩
  · unfold login
    rw [hnone]
    simp [hne, hvalid, hmem2, mostRecent]
  · unfold login
    have hfil : (store ++
        [(⟨g1, f1, some sid, t1, t1, 0, t1 + SEVEN_DAYS, [], ""⟩ : SessionDoc)]).filter
          (fun d => d.student_id == some sid) =
        [⟨g1, f1, some sid, t1, t1, 0, t1 + SEVEN_DAYS, [], ""⟩] := by
      rw [List.filter_append, hnone]
      simp
    rw [hfil]
    have hupd : updateFirst
        (fun d => d.mongo_id ==
          (⟨g1, f1, some sid, t1, t1, 0, t1 + SEVEN_DAYS, [], ""⟩ : SessionDoc).mongo_id)
        (fun d => { d with session_id := f1, last_activity := t2,
                           expires_at := t2 + SEVEN_DAYS })
        (store ++ [⟨g1, f1, some sid, t1, t1, 0, t1 + SEVEN_DAYS, [], ""⟩]) =
        store ++ [⟨g1, f1, some sid, t1, t2, 0, t2 + SEVEN_DAYS, [], ""⟩] := by
      rw [updateFirst_append_of_none _ _ store _ (fun x hx => hfresh x hx),
        updateFirst_cons_pos _ _ _ _ (by simp)]
    simp [hne, hvalid, hmem2, mostRecent] at hupd ⊢
    rw [hupd]
  · rw [List.filter_append, hnone]
    simp

/-- C8 witness: two concrete logins on an empty store reuse the single
created session record. -/
theorem login_twice_reuses_session_witness :
    ∃ store1 store2 r1 r2,
      login [sid24] [] sid24 none 1 ("sidA") ("oidA") = (store1, some r1) ∧
      login [sid24] store1 sid24 none 2 ("sidB") ("oidB") = (store2, some r2) ∧
      r2.session_id = r1.session_id ∧
      r2.mongo_id = r1.mongo_id ∧
      (store2.filter (fun d => d.student_id == some sid24)).length = 1 :=
  login_twice_reuses_session [sid24] [] sid24 1 2 "sidA" "oidA" "sidB" "oidB"
    (by decide) (by decide) (by rfl) (by simp)

/-- C9: `get_exam_buddy_response` is total and never propagates an exception:
whenever its body (chain construction, session-context assembly, chain
invocation, the trailing activity update) raises, the caller receives the
fixed apology string; otherwise it receives the chain response. -/
theorem get_exam_buddy_response_total (filt : String → String)
    (llm : String → String → String → String) (apiKeySet : Bool)
    (session : Option SessionDoc) (dbUpdateFails : Bool)
    (question : String) (context : Ctx) :
    (∃ e n, get_exam_buddy_response_body filt llm apiKeySet session dbUpdateFails
        question context = (.error e, n) ∧
      get_exam_buddy_response filt llm apiKeySet session dbUpdateFails
        question context = (APOLOGY, n)) ∨
    (∃ r n, get_exam_buddy_response_body filt llm apiKeySet session dbUpdateFails
        question context = (.ok r, n) ∧
      get_exam_buddy_response filt llm apiKeySet session dbUpdateFails
        question context = (r, n)) := by
  rcases hb : get_exam_buddy_response_body filt llm apiKeySet session dbUpdateFails
    question context with ⟨res, n⟩
  cases res with
  | error e =>
    left
    refine ⟨e, n, rfl, ?_⟩
    unfold get_exam_buddy_response
    rw [hb]
  | ok r =>
    right
    refine ⟨r, n, rfl, ?_⟩
    unfold get_exam_buddy_response
    rw [hb]

/-- C9 witness: the totality statement instantiated at a concrete call with
the API key missing (the body raises `ValueError`, the caller still gets the
apology string). -/
theorem get_exam_buddy_response_total_witness :
    (∃ e n, get_exam_buddy_response_body id llmStub false none false
        ("q") (Ctx.str ("")) = (.error e, n) ∧
      get_exam_buddy_response id llmStub false none false
        ("q") (Ctx.str ("")) = (APOLOGY, n)) ∨
    (∃ r n, get_exam_buddy_response_body id llmStub false none false
        ("q") (Ctx.str ("")) = (.ok r, n) ∧
      get_exam_buddy_response id llmStub false none false
        ("q") (Ctx.str ("")) = (r, n)) :=
  get_exam_buddy_response_total id llmStub false none false "q" (Ctx.str "")

/-- C10: `save_message` with a session identifier and no matching session
document inserts one fresh document whose conversation is exactly the single
new message and whose expiry is now + 7 days; with a matching document it
rewrites only that document's `conversation`, `last_activity` and
`expires_at` fields, leaving its other fields and every other document
unchanged. -/
theorem save_message_spec (sid : String) (student_id : Option String)
    (g : String) (now : Nat) (role content : String) :
    (∀ store, store.find? (save_message_match sid student_id) = none →
      save_message store (some sid) student_id g now role content =
        (store ++ [{ mongo_id := g, session_id := sid, student_id := student_id,
                     created_at := now, last_activity := now,
                     expires_at := now + SEVEN_DAYS,
                     conversation := [{ role := role, content := content,
                                        timestamp := now }] }],
         true)) ∧
    (∀ pre s post,
      (∀ x ∈ pre, save_message_match sid student_id x = false) →
      save_message_match sid student_id s = true →
      (∀ x ∈ pre, (x.mongo_id == s.mongo_id) = false) →
      save_message (pre ++ s :: post) (some sid) student_id g now role content =
        (pre ++
          { s with
            conversation := save_message_conv s.conversation ⟨role, content, now⟩,
            last_activity := now,
            expires_at := now + SEVEN_DAYS } :: post,
         true)) := by
  constructor
  · intro store h
    unfold save_message
    dsimp only
    rw [h]
  · intro pre s post hpre hs hfresh
    have hfind : (pre ++ s :: post).find? (save_message_match sid student_id) =
        some s := by
      rw [List.find?_append, List.find?_eq_none.mpr
        (fun x hx hpx => by rw [hpre x hx] at hpx; exact Bool.false_ne_true hpx)]
      simp [List.find?_cons_of_pos _ hs]
    unfold save_message
    dsimp only
    rw [hfind]
    dsimp only
    rw [updateFirst_append_of_none _ _ pre _ (fun x hx => hfresh x hx),
      updateFirst_cons_pos _ _ _ _ (by simp)]

/-- C10 witness: an insert on the empty store and an in-place update on a
one-document store. -/
theorem save_message_spec_witness :
    save_message [] (some ("s9")) none ("oid9") 7 ("user") ("hi") =
      ([{ mongo_id := "oid9", session_id := "s9", student_id := none,
          created_at := 7, last_activity := 7, expires_at := 7 + SEVEN_DAYS,
          conversation := [{ role := "user", content := "hi",
                             timestamp := 7 }] }], true) ∧
    save_message [sampleDoc] (some ("s1")) none ("oid9") 7 ("user") ("hi") =
      ([{ sampleDoc with
            conversation := save_message_conv sampleDoc.conversation ⟨"user", "hi", 7⟩,
            last_activity := 7,
            expires_at := 7 + SEVEN_DAYS }], true) :=
  ⟨(save_message_spec "s9" none "oid9" 7 "user" "hi").1 [] (by rfl),
   (save_message_spec "s1" none "oid9" 7 "user" "hi").2 [] sampleDoc []
     (by simp) (by decide) (by simp)⟩

end ExamBuddy
